import Mathlib

/-!
Verification development for shaxbee/go-wsproxy (wsproxy.go).

The program bridges a websocket connection to a wrapped `http.Handler`:

* `ServeHTTP` dispatches on the `Upgrade` header (direct handler call vs
  websocket upgrade + `proxy`);
* `proxy` optionally performs a one-message bearer-token handshake, builds a
  synthetic `http.Request`, starts the handler, and runs `listenRead` /
  `listenWrite` over two `io.Pipe` conduits;
* `listenRead` moves websocket bytes into the handler's request body;
* `listenWrite` moves newline-terminated chunks of the handler's response to
  the websocket, one chunk per message;
* `responseForwarder` adapts `http.ResponseWriter` onto the outbound pipe.

Bytes are modelled as `Nat` (the newline byte is 10), byte streams as
`List Nat`, websocket message sequences as `List (List Nat)`, and Go strings
(method, host, header values, tokens) as Lean `String`.
-/

namespace Wsproxy

/-- The newline byte `'\n'` used as the record terminator throughout
wsproxy.go (`w.WriteRune('\n')`, `r.ReadBytes('\n')`). -/
def NL : Nat := 10

/-! ## Write Loop: `listenWrite` (wsproxy.go lines 116-137)

`listenWrite` repeatedly calls `r.ReadBytes('\n')` on a `bufio.Reader` over
the outbound pipe and sends each returned chunk with
`websocket.Message.Send(ws, b)`.

The outbound conduit is modelled by the full byte stream `s : List Nat` the
handler wrote before closing its side of the pipe; after `s` the reader
reports `io.EOF`.  The `ctx.Done()` check never fires for `listenWrite`: its
context is cancelled only by `proxy`'s own `defer cancel()`, which runs after
`listenWrite` (called on `proxy`'s goroutine) has already returned, so each
iteration takes the `default` branch. -/

/-- Result of `bufio.Reader.ReadBytes('\n')` on a stream that hits `io.EOF`
after its last byte: `ok chunk rest` when a newline was found (`chunk`
includes the newline, `rest` is the unconsumed remainder, returned error is
nil); `eof pending` when the stream ended before any newline (`pending` is
the unterminated data returned together with the `io.EOF` error). -/
inductive ReadBytesResult where
  | ok (chunk rest : List Nat)
  | eof (pending : List Nat)
deriving DecidableEq, Repr

/-- `bufio.Reader.ReadBytes('\n')`: scan bytes up to and including the first
newline byte. -/
def readBytes10 : List Nat → ReadBytesResult
  | [] => .eof []
  | b :: rest =>
    if b = NL then .ok [b] rest
    else
      match readBytes10 rest with
      | .ok chunk rest' => .ok (b :: chunk) rest'
      | .eof p => .eof (b :: p)

theorem readBytes10_ok_length {s chunk rest : List Nat}
    (h : readBytes10 s = .ok chunk rest) : rest.length < s.length := by
  induction s generalizing chunk rest with
  | nil => simp [readBytes10] at h
  | cons b tl ih =>
    simp only [readBytes10] at h
    by_cases hb : b = NL
    · simp only [hb, if_pos rfl] at h
      cases h
      simp
    · simp only [if_neg hb] at h
      cases htl : readBytes10 tl with
      | ok chunk' rest' =>
        rw [htl] at h
        cases h
        exact Nat.lt_trans (ih htl) (by simp)
      | eof p => rw [htl] at h; cases h

/-- The Write Loop of wsproxy.go (lines 116-137): read one newline-terminated
chunk; on `io.EOF` return (the pending unterminated chunk `b` is discarded
without being sent); otherwise send the chunk, including its trailing
newline, as one discrete websocket message, and loop.  The returned list is
the sequence of websocket messages sent. -/
def listenWrite (s : List Nat) : List (List Nat) :=
  match h : readBytes10 s with
  | .eof _ => []
  | .ok chunk rest => chunk :: listenWrite rest
termination_by s.length
decreasing_by exact readBytes10_ok_length h

theorem listenWrite_eof {s : List Nat} {p : List Nat}
    (h : readBytes10 s = .eof p) : listenWrite s = [] := by
  rw [listenWrite]
  split
  · rfl
  · rename_i chunk rest h'
    rw [h] at h'
    cases h'

theorem listenWrite_ok {s chunk rest : List Nat}
    (h : readBytes10 s = .ok chunk rest) :
    listenWrite s = chunk :: listenWrite rest := by
  rw [listenWrite]
  split
  · rename_i p h'
    rw [h] at h'
    cases h'
  · rename_i chunk' rest' h'
    rw [h] at h'
    cases h'
    rfl

theorem readBytes10_no_newline {t : List Nat} (ht : NL ∉ t) :
    readBytes10 t = .eof t := by
  induction t with
  | nil => rfl
  | cons b tl ih =>
    have hb : b ≠ NL := fun hb => ht (hb ▸ List.mem_cons_self b tl)
    have htl : NL ∉ tl := fun h => ht (List.mem_cons_of_mem b h)
    simp only [readBytes10, if_neg hb, ih htl]

theorem readBytes10_line {c : List Nat} (t : List Nat) (hc : NL ∉ c) :
    readBytes10 (c ++ NL :: t) = .ok (c ++ [NL]) t := by
  induction c with
  | nil => simp [readBytes10]
  | cons b tl ih =>
    have hb : b ≠ NL := fun hb => hc (hb ▸ List.mem_cons_self b tl)
    have htl : NL ∉ tl := fun h => hc (List.mem_cons_of_mem b h)
    simp only [List.cons_append, readBytes10, List.append_eq, if_neg hb, ih htl]

/-- Core behaviour of the Write Loop: a stream made of newline-terminated
lines followed by an unterminated tail `t` produces exactly the lines, in
order; the tail is never sent. -/
theorem listenWrite_join_append (ls : List (List Nat)) (t : List Nat)
    (hls : ∀ l ∈ ls, ∃ c, l = c ++ [NL] ∧ NL ∉ c) (ht : NL ∉ t) :
    listenWrite (ls.flatten ++ t) = ls := by
  induction ls with
  | nil =>
    simp only [List.flatten_nil, List.nil_append]
    exact listenWrite_eof (readBytes10_no_newline ht)
  | cons l tl ih =>
    obtain ⟨c, hl, hc⟩ := hls l (List.mem_cons_self l tl)
    have hrest : ∀ l' ∈ tl, ∃ c', l' = c' ++ [NL] ∧ NL ∉ c' := by
      intro l' hl'
      exact hls l' (List.mem_cons_of_mem l hl')
    have harr : (l :: tl).flatten ++ t = c ++ NL :: (tl.flatten ++ t) := by
      simp [hl, List.flatten_cons, List.append_assoc]
    rw [harr, listenWrite_ok (readBytes10_line (tl.flatten ++ t) hc), ih hrest, hl]

/-! ## Read Loop: `listenRead` (wsproxy.go lines 90-114)

`listenRead` loops over `_, err := w.ReadFrom(ws)` where `w` is a
`bufio.Writer` over the inbound pipe's write end (`owp`) and `ws` is the
websocket connection used as an `io.Reader`.

Two facts about the libraries the code calls fix its behaviour:

* `websocket.Conn.Read` yields the payload bytes of successive frames with
  no message boundaries, and reports `io.EOF` once the connection is
  closed — so as an `io.Reader` the websocket is just the concatenation of
  all message payloads followed by end-of-stream;
* `bufio.Writer.ReadFrom` keeps reading until its source errors, writes
  everything read into the underlying writer, and converts a final `io.EOF`
  into a `nil` error before returning.

Hence on every iteration `w.ReadFrom(ws)` drains whatever remains of the
connection's byte stream and returns a nil error (also after a clean close,
when it immediately returns 0 bytes and nil): the `err == io.EOF` branch is
unreachable on a clean close, the loop appends one `'\n'` per iteration —
not per message — and never returns through the EOF branch.

The inbound conduit (`irp`/`owp` pipe) is modelled as the byte sequence
written into it plus a flag recording whether its write end was ever closed;
wsproxy.go contains no `owp.Close()` (nor any `CloseWithError`), so no model
operation ever sets the flag. -/

/-- The inbound conduit: bytes written into the pipe (in order) and whether
the write end has been closed (`io.PipeWriter.Close`), which is what makes
the pipe's reader — the handler's request body — observe end-of-body. -/
structure Conduit where
  data : List Nat
  closed : Bool
deriving DecidableEq, Repr

/-- `Write` on the pipe's write end (via the `bufio.Writer`, after `Flush`):
appends bytes to the conduit. -/
def Conduit.write (c : Conduit) (bs : List Nat) : Conduit :=
  { c with data := c.data ++ bs }

/-- `io.PipeWriter.Close`: subsequent reads of the drained pipe return
`io.EOF`.  Declared because the spec talks about it; wsproxy.go never calls
it on the inbound conduit. -/
def Conduit.close (c : Conduit) : Conduit :=
  { c with closed := true }

/-- The body of `listenRead`'s `for` loop (wsproxy.go lines 94-112), iterated
`fuel` times; `stream` is what remains of the websocket's byte stream (the
concatenation of the not-yet-consumed message payloads; `[]` once the
connection has been drained / cleanly closed).  Each iteration:
`w.ReadFrom(ws)` consumes the whole remaining stream and returns a nil error
(`bufio.Writer.ReadFrom` turns the reader's `io.EOF` into nil), so neither
`return` branch fires; then `w.WriteRune('\n')` and `w.Flush()` push the
bytes and a single newline into the conduit.  `fuel` counts iterations
actually executed — the loop itself has no exit on this path and runs until
the context is cancelled (by `proxy`'s deferred `cancel()`) or forever. -/
def listenReadLoop (stream : List Nat) (c : Conduit) : Nat → Conduit
  | 0 => c
  | fuel + 1 =>
    listenReadLoop [] ((c.write stream).write [NL]) fuel

/-- The Read Loop on a session whose client sends the messages `ms` and then
cleanly closes the connection, run for `fuel` iterations, starting from the
fresh inbound conduit created by `io.Pipe()` in `proxy` (line 69). -/
def listenRead (ms : List (List Nat)) (fuel : Nat) : Conduit :=
  listenReadLoop ms.flatten { data := [], closed := false } fuel

/-- Scanner for `parseLines`: `cur` is the partially assembled record. -/
def parseLinesGo (cur : List Nat) : List Nat → List (List Nat)
  | [] => []
  | b :: rest =>
    if b = NL then cur :: parseLinesGo [] rest
    else parseLinesGo (cur ++ [b]) rest

/-- Newline-delimited parse of a byte stream, following the spec's words
("the handler's request body, parsed as newline-delimited records"): the
records are the contents of the successive newline-terminated chunks,
terminators stripped (what a consumer reading the body record by record with
`ReadBytes('\n')` obtains).  Data after the last newline is not a record. -/
def parseLines (s : List Nat) : List (List Nat) :=
  parseLinesGo [] s

theorem listenReadLoop_nil (c : Conduit) (fuel : Nat) :
    listenReadLoop [] c fuel =
      { data := c.data ++ List.replicate fuel NL, closed := c.closed } := by
  induction fuel generalizing c with
  | zero => simp [listenReadLoop]
  | succ k ih =>
    rw [listenReadLoop, ih]
    simp [Conduit.write, List.replicate_succ]

/-- Closed form of the Read Loop's effect on the inbound conduit: after
`fuel + 1` iterations the conduit holds all message payloads concatenated,
followed by one newline per iteration; the write end is never closed. -/
theorem listenRead_run (ms : List (List Nat)) (fuel : Nat) :
    listenRead ms (fuel + 1) =
      { data := ms.flatten ++ List.replicate (fuel + 1) NL, closed := false } := by
  rw [listenRead, listenReadLoop, listenReadLoop_nil]
  simp [Conduit.write, List.replicate_succ, List.append_assoc]

theorem listenRead_closed (ms : List (List Nat)) (fuel : Nat) :
    (listenRead ms fuel).closed = false := by
  cases fuel with
  | zero => rfl
  | succ k => rw [listenRead_run]

/-! ## Requests, headers, dispatch: `ServeHTTP` (wsproxy.go lines 34-42) and
`proxy` (lines 44-88)

Go strings are modelled as Lean `String` (Go's `strings.ToLower` agrees with
the ASCII case mapping used here on every ASCII string, in particular on all
strings compared against `"websocket"`).  `http.Header` is a map from
canonical key to list of values, modelled as an association list; `Get`
returns the first value for the key, or `""`. -/

/-- `http.Header`: association list from header key to values. -/
abbrev Header := List (String × List String)

/-- `http.Header.Get`: first value stored under the key, `""` when the key is
absent or has no values. -/
def Header.get (h : Header) (k : String) : String :=
  match h.find? (fun p => p.1 == k) with
  | some p => p.2.headD ""
  | none => ""

/-- A cancellation signal as observable through an `http.Request`.
`reqCancel id` is a channel carried in the incoming request's `Cancel` field;
`sessionCtx id` is a context created inside `proxy` by
`context.WithCancel(context.Background())` (line 47) — a freshly allocated
channel, never equal to any channel that arrived with the request, which the
two constructors encode structurally. -/
inductive Signal where
  | reqCancel (id : Nat)
  | sessionCtx (id : Nat)
deriving DecidableEq, Repr

/-- The fields of `http.Request` that wsproxy.go reads or writes. -/
structure Request where
  Method : String
  URL : Nat
  Proto : String
  ProtoMajor : Nat
  ProtoMinor : Nat
  Header : Header
  ContentLength : Int
  Host : String
  RemoteAddr : String
  Cancel : Signal
deriving DecidableEq, Repr

/-- `Config` (wsproxy.go lines 22-25). -/
structure Config where
  ReadToken : Bool
  RewriteMethod : String
deriving DecidableEq, Repr

/-- Where `ServeHTTP` sends an incoming request: `direct r` is
`wp.h.ServeHTTP(w, r)` — the wrapped handler invoked with the original
response writer and request; `upgrade r` is the websocket handshake
(`websocket.Handler(...).ServeHTTP`) followed by `wp.proxy(r, ws)`. -/
inductive Dispatch where
  | direct (r : Request)
  | upgrade (r : Request)
deriving DecidableEq, Repr

/-- `WebSocketProxy.ServeHTTP` (wsproxy.go lines 34-42): requests whose
lower-cased `Upgrade` header differs from `"websocket"` go straight to the
wrapped handler; the rest are upgraded and proxied. -/
def serveHTTP (r : Request) : Dispatch :=
  if (Header.get r.Header "Upgrade").toLower ≠ "websocket" then
    .direct r
  else
    .upgrade r

/-- Outcome of `websocket.Message.Receive(ws, &tok)` for the auth handshake
message (wsproxy.go line 53): the received token string, or any failure
(connection closed before a message arrived, transport read error, ...). -/
inductive ReceiveResult where
  | ok (tok : String)
  | err
deriving DecidableEq, Repr

/-- What one run of `proxy` (wsproxy.go lines 44-88) does before the loops
start: whether the wrapped handler is invoked, the synthetic request it is
invoked with (lines 72-84), and the session-local context created at
line 47. -/
structure ProxyOutcome where
  handlerInvoked : Bool
  request : Option Request
  sessionCtx : Signal
deriving DecidableEq, Repr

/-- `WebSocketProxy.proxy`, wsproxy.go lines 44-88, up to handler start.

Line by line: line 47 creates the session context (a fresh cancellable
context, modelled `Signal.sessionCtx 0`); lines 50-57 read the bearer token
when `ReadToken` is set, returning early — before the handler goroutine at
line 72 is started — when the receive fails, and otherwise build the
`Authorization` header (`var header http.Header` stays nil, i.e. `[]`,
when `ReadToken` is unset); lines 59-64 choose the method; lines 72-84
invoke the handler on the synthetic `http.Request` literal, whose `Cancel`
field is `req.Cancel` (line 83), not the context from line 47. -/
def proxy (c : Config) (req : Request) (recv : ReceiveResult) : ProxyOutcome :=
  let ctx : Signal := .sessionCtx 0
  let auth : Option Header :=
    if c.ReadToken then
      match recv with
      | .err => none
      | .ok tok => some [("Authorization", ["Bearer " ++ tok])]
    else some []
  match auth with
  | none => { handlerInvoked := false, request := none, sessionCtx := ctx }
  | some hdr =>
    let method := if c.RewriteMethod ≠ "" then c.RewriteMethod else req.Method
    { handlerInvoked := true
      request := some
        { Method := method
          URL := req.URL
          Proto := "HTTP/2"
          ProtoMajor := 2
          ProtoMinor := 0
          Header := hdr
          ContentLength := -1
          Host := req.Host
          RemoteAddr := req.RemoteAddr
          Cancel := req.Cancel }
      sessionCtx := ctx }

/-! ## Response Forwarder: `respForwarder` / `responseForwarder`
(wsproxy.go lines 139-154)

`responseForwarder` embeds the `io.Writer` (the outbound pipe's write end
`iwp`) and carries a header map.  `Write` is the promoted `io.Writer.Write`:
bytes go to the pipe untouched.  `Header()` returns the map; `WriteHeader`
has an empty body.  The transport-visible state is the byte sequence written
to the outbound conduit, modelled by the field `w`. -/

/-- `responseForwarder`: `w` is the byte sequence so far written to the
outbound conduit (the embedded `io.Writer`), `h` the header map. -/
structure responseForwarder where
  w : List Nat
  h : Header
deriving DecidableEq, Repr

/-- `respForwarder(w)` (line 139-141): fresh forwarder over an empty conduit
with `make(http.Header)`. -/
def respForwarder : responseForwarder :=
  { w := [], h := [] }

/-- The promoted `io.Writer.Write`: forwards the bytes to the outbound
conduit verbatim. -/
def responseForwarder.write (rf : responseForwarder) (bs : List Nat) :
    responseForwarder :=
  { rf with w := rf.w ++ bs }

/-- `rf.Header()` (lines 148-150): the header map the handler may mutate. -/
def responseForwarder.header (rf : responseForwarder) : Header :=
  rf.h

/-- A handler mutating the map returned by `Header()` — e.g.
`w.Header().Set(k, v)`, which replaces all values stored under `k`. -/
def responseForwarder.setHeader (rf : responseForwarder) (k v : String) :
    responseForwarder :=
  { rf with h := (k, [v]) :: rf.h.filter (fun p => p.1 ≠ k) }

/-- `rf.WriteHeader(int)` (lines 152-154): empty body. -/
def responseForwarder.writeHeader (rf : responseForwarder) (_code : Int) :
    responseForwarder :=
  rf

/-! ## Claims -/

/-- C1: for every sequence of N newline-terminated lines written by the
handler to the Response Forwarder (each line is some content without a
newline followed by the `'\n'` terminator), the Write Loop sends exactly N
discrete websocket messages, one per line, each equal to that line
(terminator included), in the original order. -/
theorem listenWrite_one_message_per_line (ls : List (List Nat))
    (h : ∀ l ∈ ls, ∃ c, l = c ++ [NL] ∧ NL ∉ c) :
    listenWrite ls.flatten = ls := by
  have := listenWrite_join_append ls [] h (List.not_mem_nil NL)
  simpa using this

/-- Witness for C1: the handler writes the two lines `"a\n"`, `"b\n"`; the
Write Loop sends exactly those two messages in order. -/
theorem listenWrite_one_message_per_line_witness :
    (∀ l ∈ ([[97, NL], [98, NL]] : List (List Nat)),
      ∃ c, l = c ++ [NL] ∧ NL ∉ c) ∧
    listenWrite ([[97, NL], [98, NL]] : List (List Nat)).flatten
      = [[97, NL], [98, NL]] := by
  have h : ∀ l ∈ ([[97, NL], [98, NL]] : List (List Nat)),
      ∃ c, l = c ++ [NL] ∧ NL ∉ c := by
    intro l hl
    simp only [List.mem_cons, List.not_mem_nil, or_false] at hl
    rcases hl with rfl | rfl
    · exact ⟨[97], rfl, by decide⟩
    · exact ⟨[98], rfl, by decide⟩
  exact ⟨h, listenWrite_one_message_per_line _ h⟩

/-- C10: when the outbound conduit ends in a final chunk `t` that is not
terminated by a newline, the Write Loop exits on the resulting `io.EOF`
without sending it: only the newline-terminated lines before it are sent. -/
theorem listenWrite_discards_unterminated (ls : List (List Nat)) (t : List Nat)
    (hls : ∀ l ∈ ls, ∃ c, l = c ++ [NL] ∧ NL ∉ c) (ht : NL ∉ t)
    (_hne : t ≠ []) :
    listenWrite (ls.flatten ++ t) = ls :=
  listenWrite_join_append ls t hls ht

/-- Witness for C10: the handler writes `"a\n"` and then the unterminated
byte `"b"`; only `"a\n"` is sent. -/
theorem listenWrite_discards_unterminated_witness :
    (∀ l ∈ ([[97, NL]] : List (List Nat)), ∃ c, l = c ++ [NL] ∧ NL ∉ c) ∧
    (NL ∉ [98]) ∧ ([98] ≠ ([] : List Nat)) ∧
    listenWrite (([[97, NL]] : List (List Nat)).flatten ++ [98]) = [[97, NL]] := by
  have h : ∀ l ∈ ([[97, NL]] : List (List Nat)), ∃ c, l = c ++ [NL] ∧ NL ∉ c := by
    intro l hl
    simp only [List.mem_cons, List.not_mem_nil, or_false] at hl
    rcases hl with rfl
    exact ⟨[97], rfl, by decide⟩
  exact ⟨h, by decide, by decide,
    listenWrite_discards_unterminated _ _ h (by decide) (by decide)⟩

/-- C2 fails on the code: with messages `"a"` then `"b"` followed by a clean
close, one iteration of the Read Loop writes `"ab\n"` into the inbound
conduit — `bufio.Writer.ReadFrom` drains the whole connection (message
boundaries are invisible to `websocket.Conn.Read`) and swallows the reader's
`io.EOF` — so the body parses as the single record `"ab"`, not as the two
records `"a"`, `"b"` that the claim (and the repository's own `TestWrite`)
requires. -/
theorem listenRead_loses_message_boundaries :
    (listenRead [[97], [98]] 1).data = [97, 98, NL] ∧
    parseLines (listenRead [[97], [98]] 1).data = [[97, 98]] ∧
    ([[97, 98]] : List (List Nat)) ≠ [[97], [98]] := by decide

/-- C6 fails on the code: the Read Loop never takes its `io.EOF` exit on a
clean close (`bufio.Writer.ReadFrom` returns a nil error there), so after the
connection is drained every further iteration appends another newline to the
conduit instead of exiting; and no code path ever closes the inbound
conduit's write side (`closed` stays `false`: wsproxy.go contains no
`owp.Close()`), so the handler never observes end-of-body. -/
theorem listenRead_never_exits_or_closes (ms : List (List Nat)) (fuel : Nat) :
    (listenRead ms fuel).closed = false ∧
    (listenRead ms (fuel + 1)).data = ms.flatten ++ List.replicate (fuel + 1) NL :=
  ⟨listenRead_closed ms fuel, by rw [listenRead_run]⟩

/-- A sample original request used by concrete witnesses. -/
def req0 : Request :=
  { Method := "GET"
    URL := 0
    Proto := "HTTP/1.1"
    ProtoMajor := 1
    ProtoMinor := 1
    Header := []
    ContentLength := 0
    Host := "example.com"
    RemoteAddr := "127.0.0.1:1234"
    Cancel := .reqCancel 0 }

/-- C3: with `ReadToken = true`, a successfully read first message `tok`
leads to the handler being invoked with exactly the header
`Authorization = "Bearer " ++ tok` (and no other header); if reading the
first message fails, the handler is never invoked and no request is built. -/
theorem proxy_auth (c : Config) (req : Request) (h : c.ReadToken = true) :
    (∀ tok, (proxy c req (.ok tok)).handlerInvoked = true ∧
      (proxy c req (.ok tok)).request.map (fun r => r.Header)
        = some [("Authorization", ["Bearer " ++ tok])]) ∧
    (proxy c req .err).handlerInvoked = false ∧
    (proxy c req .err).request = none := by
  refine ⟨fun tok => ?_, ?_, ?_⟩ <;> simp [proxy, h]

/-- Witness for C3: `ReadToken = true` with first message `"dummy token"`
yields the `Authorization: Bearer dummy token` header; a failed first read
leaves the handler uninvoked. -/
theorem proxy_auth_witness :
    (Config.mk true "").ReadToken = true ∧
    ((proxy (Config.mk true "") req0 (.ok "dummy token")).request.map
      (fun r => r.Header)
      = some [("Authorization", ["Bearer " ++ "dummy token"])]) ∧
    (proxy (Config.mk true "") req0 .err).handlerInvoked = false :=
  ⟨rfl, ((proxy_auth (Config.mk true "") req0 rfl).1 "dummy token").2,
    (proxy_auth (Config.mk true "") req0 rfl).2.1⟩

/-- C4: every incoming request takes exactly one of two distinct paths: the
websocket upgrade (when the `Upgrade` header lower-cases to `"websocket"`),
or the wrapped handler invoked directly with the original request. -/
theorem serveHTTP_dispatch (r : Request) :
    Dispatch.direct r ≠ Dispatch.upgrade r ∧
    (((Header.get r.Header "Upgrade").toLower = "websocket" ∧
        serveHTTP r = .upgrade r) ∨
      ((Header.get r.Header "Upgrade").toLower ≠ "websocket" ∧
        serveHTTP r = .direct r)) := by
  refine ⟨by simp, ?_⟩
  by_cases h : (Header.get r.Header "Upgrade").toLower = "websocket"
  · exact Or.inl ⟨h, by simp [serveHTTP, h]⟩
  · exact Or.inr ⟨h, by simp [serveHTTP, h]⟩

/-- Fields of the synthetic request built by `proxy` (wsproxy.go lines
72-84), for any run that invokes the handler. -/
theorem proxy_request_fields (c : Config) (req : Request) (recv : ReceiveResult)
    (r' : Request) (h : (proxy c req recv).request = some r') :
    r'.Method = (if c.RewriteMethod ≠ "" then c.RewriteMethod else req.Method) ∧
    r'.URL = req.URL ∧ r'.ContentLength = -1 ∧ r'.Host = req.Host ∧
    r'.RemoteAddr = req.RemoteAddr ∧ r'.Cancel = req.Cancel := by
  obtain ⟨rt, rm⟩ := c
  cases rt <;> cases recv <;> simp [proxy] at h <;> subst h <;> simp

/-- C5: whenever the handler is invoked, the synthetic request's method is
`RewriteMethod` when that is non-empty, and the original request's method
otherwise. -/
theorem proxy_method_rewrite (c : Config) (req : Request) (recv : ReceiveResult)
    (r' : Request) (h : (proxy c req recv).request = some r') :
    (c.RewriteMethod ≠ "" → r'.Method = c.RewriteMethod) ∧
    (c.RewriteMethod = "" → r'.Method = req.Method) := by
  have hm := (proxy_request_fields c req recv r' h).1
  constructor
  · intro hne
    rw [hm, if_pos hne]
  · intro he
    rw [hm, if_neg (by simp [he])]

/-- The synthetic request of the run `proxy ⟨false, "POST"⟩ req0 (.ok "")`,
spelled out. -/
def synthPost : Request :=
  { Method := "POST"
    URL := 0
    Proto := "HTTP/2"
    ProtoMajor := 2
    ProtoMinor := 0
    Header := []
    ContentLength := -1
    Host := "example.com"
    RemoteAddr := "127.0.0.1:1234"
    Cancel := .reqCancel 0 }

/-- Witness for C5: with `RewriteMethod = "POST"` and original method `"GET"`
the handler observes method `"POST"`. -/
theorem proxy_method_rewrite_witness :
    (proxy (Config.mk false "POST") req0 (.ok "")).request = some synthPost ∧
    (("POST" : String) ≠ "" → synthPost.Method = "POST") ∧
    (("POST" : String) = "" → synthPost.Method = req0.Method) :=
  ⟨by decide, proxy_method_rewrite (Config.mk false "POST") req0 (.ok "")
    synthPost (by decide)⟩

/-- C7 fails as stated: the synthetic request's cancellation signal is the
originating request's `Cancel` channel (wsproxy.go line 83), not the
session-local context created at line 47 — the two are distinct, so the
handler does not observe session teardown through its request. -/
theorem proxy_cancel_counterexample :
    ((proxy (Config.mk false "") req0 (.ok "")).request.map (fun r => r.Cancel))
      = some (Signal.reqCancel 0) ∧
    (proxy (Config.mk false "") req0 (.ok "")).sessionCtx = Signal.sessionCtx 0 ∧
    Signal.reqCancel 0 ≠ Signal.sessionCtx 0 := by decide

/-- C7 as amended: for every session that reaches the handler, the synthetic
request declares an unknown/streaming content length (`-1`), copies URL,
host and remote address verbatim from the triggering request, and carries
the ORIGINAL request's cancellation signal (`req.Cancel`), not the session's
internal cancellation context — the handler can observe cancellation of the
originating request, but not session teardown. -/
theorem proxy_request_adaptation (c : Config) (req : Request)
    (recv : ReceiveResult) (r' : Request)
    (h : (proxy c req recv).request = some r') :
    r'.ContentLength = -1 ∧ r'.URL = req.URL ∧ r'.Host = req.Host ∧
    r'.RemoteAddr = req.RemoteAddr ∧ r'.Cancel = req.Cancel := by
  obtain ⟨-, hURL, hCL, hHost, hRA, hC⟩ :=
    proxy_request_fields c req recv r' h
  exact ⟨hCL, hURL, hHost, hRA, hC⟩

/-- Witness for the amended C7 at a concrete session. -/
theorem proxy_request_adaptation_witness :
    (proxy (Config.mk false "POST") req0 (.ok "")).request = some synthPost ∧
    synthPost.ContentLength = -1 ∧ synthPost.URL = req0.URL ∧
    synthPost.Host = req0.Host ∧ synthPost.RemoteAddr = req0.RemoteAddr ∧
    synthPost.Cancel = req0.Cancel :=
  ⟨by decide, proxy_request_adaptation (Config.mk false "POST") req0 (.ok "")
    synthPost (by decide)⟩

/-- C9: the Response Forwarder forwards every byte written by the handler
verbatim to the outbound conduit; mutating the map returned by `Header()`
leaves the conduit untouched (no transport effect); and `WriteHeader` — the
status-code call — changes nothing at all. -/
theorem responseForwarder_contract :
    (∀ rf bs, (responseForwarder.write rf bs).w = rf.w ++ bs) ∧
    (∀ rf k v, (responseForwarder.setHeader rf k v).w = rf.w) ∧
    (∀ rf code, responseForwarder.writeHeader rf code = rf) :=
  ⟨fun _ _ => rfl, fun _ _ _ => rfl, fun _ _ => rfl⟩

end Wsproxy
